import Mathlib

/-!
Verification development for the smart-attendance core of the
academic-anchor-point repository.

The definitions below are a shallow embedding of the two serverless
handlers in `supabase/functions/verify-face/index.ts`:

* the admin face-match handler (candidate loop, lines 135-276), and
* the student `mark-smart-attendance` handler (lines 301-525),

together with the pure helper `getDistanceMeters` (lines 527-535).

JavaScript numbers are modelled as real numbers (for coordinates and
distances) and rationals (for AI confidences); database lookups awaited by
the handler are modelled as fields of an environment record; machine
effects (row inserts) are reported in the result record.
-/

/-- JavaScript truthiness of a nullable string: `null`/`undefined` and the
empty string are falsy, every other string is truthy. -/
def jsStrTruthy : Option String → Bool
  | none => false
  | some s => !(s == "")

/-- Client IP resolution, from
`req.headers.get('x-forwarded-for')?.split(',')[0]?.trim() ||
 req.headers.get('cf-connecting-ip') || 'unknown'`.
A missing header is modelled as `none`; the optional-chaining result that is
`undefined` is folded into the falsy empty string. -/
def resolveClientIp (xff cf : Option String) : String :=
  let first :=
    match xff with
    | some s => ((s.splitOn ",").headD "").trim
    | none => ""
  if first ≠ "" then first
  else
    match cf with
    | some c => if c ≠ "" then c else "unknown"
    | none => "unknown"

/-- One row of `campus_settings` (the CampusConfig singleton). -/
structure CampusSettings where
  latitude : ℝ
  longitude : ℝ
  allowedRadiusMeters : ℝ
  campusIp : Option String
  campusIpRange : Option String

/-- The fields of an `attendance_sessions` row that the handler reads.
`expiresAt` is the epoch-milliseconds value of `expires_at`. -/
structure Session where
  status : String
  expiresAt : Int
  gpsRequired : Bool
  wifiRequired : Bool

/-- Haversine helper: the quantity `a` computed inside `getDistanceMeters`. -/
noncomputable def haversineA (lat1 lon1 lat2 lon2 : ℝ) : ℝ :=
  Real.sin ((lat2 - lat1) * Real.pi / 180 / 2) ^ 2 +
    Real.cos (lat1 * Real.pi / 180) * Real.cos (lat2 * Real.pi / 180) *
      Real.sin ((lon2 - lon1) * Real.pi / 180 / 2) ^ 2

/-- JavaScript `Math.atan2 y x` on finite reals. -/
noncomputable def mathAtan2 (y x : ℝ) : ℝ :=
  if 0 < x then Real.arctan (y / x)
  else if x < 0 then
    (if 0 ≤ y then Real.arctan (y / x) + Real.pi else Real.arctan (y / x) - Real.pi)
  else if 0 < y then Real.pi / 2
  else if y < 0 then -(Real.pi / 2)
  else 0

/-- The source function `getDistanceMeters(lat1, lon1, lat2, lon2)`:
haversine distance with Earth radius 6371000 m. -/
noncomputable def getDistanceMeters (lat1 lon1 lat2 lon2 : ℝ) : ℝ :=
  6371000 * 2 * mathAtan2
    (Real.sqrt (haversineA lat1 lon1 lat2 lon2))
    (Real.sqrt (1 - haversineA lat1 lon1 lat2 lon2))

/-- The `gpsVerified` flag computed by the handler:

`if (session.gps_required && campusSettings) { if (latitude != null &&
longitude != null) { gpsVerified = dist <= allowed_radius_meters } } else
{ gpsVerified = true }`.

Note the `else` branch is taken both when GPS is not required and when no
campus-settings row exists. -/
def gpsVerifiedOf (s : Session) (cfg : Option CampusSettings)
    (lat lon : Option ℝ) : Prop :=
  match s.gpsRequired, cfg with
  | true, some c =>
    match lat, lon with
    | some la, some lo =>
        getDistanceMeters la lo c.latitude c.longitude ≤ c.allowedRadiusMeters
    | _, _ => False
  | _, _ => True

/-- The `wifiVerified` flag computed by the handler:

`if (session.wifi_required && campusSettings) { if (campus_ip && clientIp
!== 'unknown') { ... startsWith range / equality ... } } else
{ wifiVerified = true }`. -/
def wifiVerifiedOf (s : Session) (cfg : Option CampusSettings)
    (clientIp : String) : Prop :=
  match s.wifiRequired, cfg with
  | true, some c =>
      if jsStrTruthy c.campusIp = true ∧ clientIp ≠ "unknown" then
        if jsStrTruthy c.campusIpRange = true then
          clientIp.startsWith (c.campusIpRange.getD "") = true ∨
            c.campusIp = some clientIp
        else c.campusIp = some clientIp
      else False
  | _, _ => True

/-- Everything the `mark-smart-attendance` handler reads: request data,
clock, and the results of the awaited database queries, plus whether each
insert statement would fail. -/
structure MarkEnv where
  hasAuthHeader : Bool
  userOk : Bool
  role : Option String
  sessionId : Option String
  latitude : Option ℝ
  longitude : Option ℝ
  xForwardedFor : Option String
  cfConnectingIp : Option String
  now : Int
  session : Option Session
  student : Option String
  existingRecord : Bool
  campusSettings : Option CampusSettings
  insertFails : Bool
  existingLedger : Bool
  ledgerInsertFails : Bool

/-- The distinct responses the `mark-smart-attendance` handler can produce.
`verificationFailed` carries the two reported booleans (as the propositions
the handler computed); `success` carries the reported verification type. -/
inductive MarkOutcome where
  | notAuthenticated
  | invalidUser
  | notStudent
  | missingSessionId
  | sessionNotFound
  | sessionClosedOrExpired
  | studentNotFound
  | alreadyMarked
  | verificationFailed (gpsVerified wifiVerified : Prop)
  | insertFailed
  | success (verificationType : String)

/-- HTTP status code attached to each outcome in the source. -/
def statusCodeOf : MarkOutcome → Nat
  | .notAuthenticated => 401
  | .invalidUser => 401
  | .notStudent => 403
  | .missingSessionId => 400
  | .sessionNotFound => 404
  | .sessionClosedOrExpired => 400
  | .studentNotFound => 404
  | .alreadyMarked => 409
  | .verificationFailed _ _ => 403
  | .insertFailed => 500
  | .success _ => 200

/-- Whether the JSON body of the response carries an `error` field (every
outcome except the final success does in the source). -/
def isErrorBody : MarkOutcome → Bool
  | .success _ => false
  | _ => true

/-- Result of one handler run: the response plus which rows were written.
`ledgerAttempted` records whether the secondary `attendance` insert was
issued at all. -/
structure MarkResult where
  outcome : MarkOutcome
  smartWritten : Bool
  ledgerAttempted : Bool
  ledgerWritten : Bool

/-- The handler's `gpsVerified` for a given environment. -/
def gpsOf (s : Session) (env : MarkEnv) : Prop :=
  gpsVerifiedOf s env.campusSettings env.latitude env.longitude

/-- The handler's `wifiVerified` for a given environment. -/
def wifiOf (s : Session) (env : MarkEnv) : Prop :=
  wifiVerifiedOf s env.campusSettings
    (resolveClientIp env.xForwardedFor env.cfConnectingIp)

open Classical in
/-- The `verificationType` string: defaults to `"gps"`, `"both"` when both
checks passed, `"wifi"` when only WiFi passed. -/
noncomputable def vtypeOf (s : Session) (env : MarkEnv) : String :=
  if gpsOf s env ∧ wifiOf s env then "both"
  else if wifiOf s env then "wifi"
  else "gps"

open Classical in
/-- The tail of the handler after the duplicate check: overall verdict,
primary insert, then the best-effort secondary ledger insert. -/
noncomputable def verifyAndInsert (s : Session) (env : MarkEnv) : MarkResult :=
  if ¬ gpsOf s env ∧ ¬ wifiOf s env then
    ⟨.verificationFailed (gpsOf s env) (wifiOf s env), false, false, false⟩
  else if env.insertFails = true then ⟨.insertFailed, false, false, false⟩
  else
    ⟨.success (vtypeOf s env), true, !env.existingLedger,
      !env.existingLedger && !env.ledgerInsertFails⟩

/-- The `mark-smart-attendance` handler: auth, role, body, session, expiry,
student and duplicate guards, then verification and the inserts. -/
noncomputable def markSmartAttendance (env : MarkEnv) : MarkResult :=
  if env.hasAuthHeader = false then ⟨.notAuthenticated, false, false, false⟩
  else if env.userOk = false then ⟨.invalidUser, false, false, false⟩
  else if ¬ (env.role = some "student") then ⟨.notStudent, false, false, false⟩
  else if jsStrTruthy env.sessionId = false then
    ⟨.missingSessionId, false, false, false⟩
  else
    match env.session with
    | none => ⟨.sessionNotFound, false, false, false⟩
    | some s =>
      if s.status ≠ "active" ∨ s.expiresAt < env.now then
        ⟨.sessionClosedOrExpired, false, false, false⟩
      else
        match env.student with
        | none => ⟨.studentNotFound, false, false, false⟩
        | some _ =>
          if env.existingRecord = true then ⟨.alreadyMarked, false, false, false⟩
          else verifyAndInsert s env

/-- The student row joined onto a registered face. -/
structure FaceStudent where
  id : String
  name : String
  studentId : String
  rollNo : String
  className : String

/-- The parsed JSON verdict `{match, confidence}` returned by the external
model for one candidate comparison (`match` is kept under the name
`matched`). -/
structure Verdict where
  matched : Bool
  confidence : ℚ

/-- One `student_faces` row as seen by the candidate loop: its joined
student (may be absent) and the parsed model verdict for comparing the
captured face with this row's stored face. `none` stands for any of the
swallowed per-candidate failures (HTTP error, unparsable response, no JSON
object in the text). -/
structure Candidate where
  student : Option FaceStudent
  verdict : Option Verdict

/-- The acceptance test of the candidate loop:
`result.match === true && result.confidence >= 0.65`. -/
def acceptsVerdict (v : Verdict) : Bool :=
  v.matched && decide ((13 : ℚ) / 20 ≤ v.confidence)

/-- Whether the loop, on reaching this candidate, stops and accepts it:
the candidate must have a joined student and a parsed passing verdict. -/
def candAccepts (c : Candidate) : Bool :=
  c.student.isSome &&
    (match c.verdict with
     | some v => acceptsVerdict v
     | none => false)

/-- The class filter applied before the loop:
`if (class_filter) facesToCheck = registeredFaces.filter(f =>
f.students?.class === class_filter)`. -/
def filterFaces (faces : List Candidate) (classFilter : Option String) :
    List Candidate :=
  if jsStrTruthy classFilter = true then
    faces.filter (fun f =>
      match f.student with
      | some st => st.className == classFilter.getD ""
      | none => false)
  else faces

/-- The candidate loop itself: skip rows without a student or without a
passing parsed verdict, return the first accepted student. -/
def scanFaces : List Candidate → Option FaceStudent
  | [] => none
  | c :: rest =>
    match c.student with
    | none => scanFaces rest
    | some st =>
      match c.verdict with
      | some v => if acceptsVerdict v = true then some st else scanFaces rest
      | none => scanFaces rest

/-- The whole recognition scan of the verify-face handler: class filter,
then first-match-wins loop. -/
def verifyFaceScan (faces : List Candidate) (classFilter : Option String) :
    Option FaceStudent :=
  scanFaces (filterFaces faces classFilter)

lemma scanFaces_eq_find (cs : List Candidate) :
    scanFaces cs = (cs.find? candAccepts).bind (fun c => c.student) := by
  induction cs with
  | nil => rfl
  | cons c rest ih =>
    cases hs : c.student with
    | none =>
      have hacc : candAccepts c = false := by simp [candAccepts, hs]
      simp [scanFaces, hs, List.find?_cons, hacc, ih]
    | some st =>
      cases hv : c.verdict with
      | none =>
        have hacc : candAccepts c = false := by simp [candAccepts, hv]
        simp [scanFaces, hs, hv, List.find?_cons, hacc, ih]
      | some v =>
        by_cases ha : acceptsVerdict v = true
        · have hacc : candAccepts c = true := by simp [candAccepts, hs, hv, ha]
          simp [scanFaces, hs, hv, ha, List.find?_cons, hacc]
        · have hacc : candAccepts c = false := by
            simp [candAccepts, hs, hv]
            simpa using ha
          simp [scanFaces, hs, hv, ha, List.find?_cons, hacc, ih]

lemma mathAtan2_nonneg (y x : ℝ) (hy : 0 ≤ y) (hx : 0 ≤ x) :
    0 ≤ mathAtan2 y x := by
  unfold mathAtan2
  by_cases h1 : 0 < x
  · rw [if_pos h1]
    rw [← Real.arctan_zero]
    exact Real.arctan_strictMono.monotone (div_nonneg hy hx)
  · rw [if_neg h1]
    have h2 : ¬ x < 0 := not_lt.mpr hx
    rw [if_neg h2]
    by_cases h3 : 0 < y
    · rw [if_pos h3]
      positivity
    · rw [if_neg h3, if_neg (not_lt.mpr hy)]

lemma mathAtan2_zero_one : mathAtan2 0 1 = 0 := by
  unfold mathAtan2
  rw [if_pos one_pos]
  simp [Real.arctan_zero]

lemma haversineA_self (la lo : ℝ) : haversineA la lo la lo = 0 := by
  unfold haversineA
  simp

lemma haversineA_symm (lat1 lon1 lat2 lon2 : ℝ) :
    haversineA lat2 lon2 lat1 lon1 = haversineA lat1 lon1 lat2 lon2 := by
  unfold haversineA
  have h1 : (lat1 - lat2) * Real.pi / 180 / 2 =
      -((lat2 - lat1) * Real.pi / 180 / 2) := by ring
  have h2 : (lon1 - lon2) * Real.pi / 180 / 2 =
      -((lon2 - lon1) * Real.pi / 180 / 2) := by ring
  rw [h1, h2, Real.sin_neg, Real.sin_neg]
  ring

lemma getDistanceMeters_self (la lo : ℝ) : getDistanceMeters la lo la lo = 0 := by
  unfold getDistanceMeters
  rw [haversineA_self]
  simp [mathAtan2_zero_one]

lemma getDistanceMeters_symm (lat1 lon1 lat2 lon2 : ℝ) :
    getDistanceMeters lat1 lon1 lat2 lon2 = getDistanceMeters lat2 lon2 lat1 lon1 := by
  unfold getDistanceMeters
  rw [haversineA_symm]

lemma getDistanceMeters_nonneg (lat1 lon1 lat2 lon2 : ℝ) :
    0 ≤ getDistanceMeters lat1 lon1 lat2 lon2 := by
  unfold getDistanceMeters
  have h := mathAtan2_nonneg
    (Real.sqrt (haversineA lat1 lon1 lat2 lon2))
    (Real.sqrt (1 - haversineA lat1 lon1 lat2 lon2))
    (Real.sqrt_nonneg _) (Real.sqrt_nonneg _)
  nlinarith

lemma gpsVerifiedOf_not_required (s : Session) (cfg : Option CampusSettings)
    (lat lon : Option ℝ) (h : s.gpsRequired = false) :
    gpsVerifiedOf s cfg lat lon := by
  unfold gpsVerifiedOf
  rw [h]
  cases cfg <;> trivial

lemma wifiVerifiedOf_not_required (s : Session) (cfg : Option CampusSettings)
    (ip : String) (h : s.wifiRequired = false) :
    wifiVerifiedOf s cfg ip := by
  unfold wifiVerifiedOf
  rw [h]
  cases cfg <;> trivial

lemma gpsVerifiedOf_no_config (s : Session) (lat lon : Option ℝ) :
    gpsVerifiedOf s none lat lon := by
  unfold gpsVerifiedOf
  cases h : s.gpsRequired <;> trivial

lemma gpsVerifiedOf_iff (s : Session) (c : CampusSettings) (lat lon : Option ℝ)
    (hG : s.gpsRequired = true) :
    gpsVerifiedOf s (some c) lat lon ↔
      ∃ la lo, lat = some la ∧ lon = some lo ∧
        getDistanceMeters la lo c.latitude c.longitude ≤ c.allowedRadiusMeters := by
  unfold gpsVerifiedOf
  rw [hG]
  cases lat with
  | none => simp
  | some la =>
    cases lon with
    | none => simp
    | some lo => simp

lemma wifiVerifiedOf_iff (s : Session) (c : CampusSettings) (ip : String)
    (hW : s.wifiRequired = true) :
    wifiVerifiedOf s (some c) ip ↔
      (jsStrTruthy c.campusIp = true ∧ ip ≠ "unknown" ∧
        (c.campusIp = some ip ∨
          (jsStrTruthy c.campusIpRange = true ∧
            ip.startsWith (c.campusIpRange.getD "") = true))) := by
  simp only [wifiVerifiedOf, hW]
  by_cases h1 : jsStrTruthy c.campusIp = true ∧ ip ≠ "unknown"
  · rw [if_pos h1]
    by_cases h2 : jsStrTruthy c.campusIpRange = true
    · rw [if_pos h2]
      constructor
      · rintro (hs | he)
        · exact ⟨h1.1, h1.2, Or.inr ⟨h2, hs⟩⟩
        · exact ⟨h1.1, h1.2, Or.inl he⟩
      · rintro ⟨_, _, he | ⟨_, hs⟩⟩
        · exact Or.inr he
        · exact Or.inl hs
    · rw [if_neg h2]
      constructor
      · intro he
        exact ⟨h1.1, h1.2, Or.inl he⟩
      · rintro ⟨_, _, he | ⟨hr, _⟩⟩
        · exact he
        · exact absurd hr h2
  · rw [if_neg h1]
    simp only [false_iff]
    rintro ⟨ha, hb, _⟩
    exact h1 ⟨ha, hb⟩

lemma mark_reaches_verify (env : MarkEnv) (s : Session)
    (hA : env.hasAuthHeader = true) (hU : env.userOk = true)
    (hR : env.role = some "student") (hSid : jsStrTruthy env.sessionId = true)
    (hS : env.session = some s) (hAct : s.status = "active")
    (hExp : ¬ s.expiresAt < env.now) (hStud : env.student.isSome = true)
    (hDup : env.existingRecord = false) :
    markSmartAttendance env = verifyAndInsert s env := by
  obtain ⟨st, hst⟩ := Option.isSome_iff_exists.mp hStud
  simp [markSmartAttendance, hA, hU, hR, hSid, hS, hAct, hExp, hst, hDup]

lemma verify_pass (s : Session) (env : MarkEnv)
    (hOk : gpsOf s env ∨ wifiOf s env) (hIns : env.insertFails = false) :
    verifyAndInsert s env =
      ⟨.success (vtypeOf s env), true, !env.existingLedger,
        !env.existingLedger && !env.ledgerInsertFails⟩ := by
  unfold verifyAndInsert
  rw [if_neg (by tauto), if_neg (by simp [hIns])]

lemma verify_fail (s : Session) (env : MarkEnv)
    (hg : ¬ gpsOf s env) (hw : ¬ wifiOf s env) :
    verifyAndInsert s env =
      ⟨.verificationFailed (gpsOf s env) (wifiOf s env), false, false, false⟩ := by
  unfold verifyAndInsert
  rw [if_pos ⟨hg, hw⟩]

lemma verify_insert_fails (s : Session) (env : MarkEnv)
    (hOk : gpsOf s env ∨ wifiOf s env) (hIns : env.insertFails = true) :
    verifyAndInsert s env = ⟨.insertFailed, false, false, false⟩ := by
  unfold verifyAndInsert
  rw [if_neg (by tauto), if_pos hIns]

lemma mark_writes_shape (env : MarkEnv) :
    (∃ v, (markSmartAttendance env).outcome = MarkOutcome.success v) ∨
      ((markSmartAttendance env).smartWritten = false ∧
       (markSmartAttendance env).ledgerAttempted = false ∧
       (markSmartAttendance env).ledgerWritten = false) := by
  unfold markSmartAttendance verifyAndInsert
  repeat' split
  all_goals simp

lemma vtypeOf_gps (s : Session) (env : MarkEnv)
    (hg : gpsOf s env) (hw : ¬ wifiOf s env) : vtypeOf s env = "gps" := by
  unfold vtypeOf
  rw [if_neg (fun h => hw h.2), if_neg hw]

lemma vtypeOf_wifi (s : Session) (env : MarkEnv)
    (hg : ¬ gpsOf s env) (hw : wifiOf s env) : vtypeOf s env = "wifi" := by
  unfold vtypeOf
  rw [if_neg (fun h => hg h.1), if_pos hw]

lemma vtypeOf_both (s : Session) (env : MarkEnv)
    (hg : gpsOf s env) (hw : wifiOf s env) : vtypeOf s env = "both" := by
  unfold vtypeOf
  rw [if_pos ⟨hg, hw⟩]

/-- A session requiring both GPS and WiFi, active, expiring at t = 1000 ms. -/
def sBoth : Session := ⟨"active", 1000, true, true⟩

/-- A session with GPS not required and WiFi required. -/
def sGpsOff : Session := ⟨"active", 1000, false, true⟩

/-- Campus settings at (12, 77), radius 200 m, campus IP 10.0.0.1, no range. -/
def cCfg : CampusSettings := ⟨12, 77, 200, some "10.0.0.1", none⟩

/-- Campus settings with a negative allowed radius: every distance is
outside it. -/
def cCfgNeg : CampusSettings := ⟨12, 77, -1, some "10.0.0.1", none⟩

/-- A fully valid base request environment at t = 500 ms, with no
coordinates, no IP headers and no campus settings. -/
def baseEnv : MarkEnv :=
  { hasAuthHeader := true, userOk := true, role := some "student",
    sessionId := some "s1", latitude := none, longitude := none,
    xForwardedFor := none, cfConnectingIp := none, now := 500,
    session := some sBoth, student := some "st1",
    existingRecord := false, campusSettings := none, insertFails := false,
    existingLedger := false, ledgerInsertFails := false }

/-- A request whose (session, student) pair already has a record. -/
def envDup : MarkEnv := { baseEnv with existingRecord := true }

/-- C1 counterexample: an attendance claim for a pair that already has a
SmartAttendanceRecord is answered with the 409 error response
`Attendance already marked for this session` — an error body, not a
non-error "already marked" result. -/
theorem C1_counterexample :
    markSmartAttendance envDup =
      ⟨MarkOutcome.alreadyMarked, false, false, false⟩ ∧
    isErrorBody MarkOutcome.alreadyMarked = true ∧
    statusCodeOf MarkOutcome.alreadyMarked = 409 ∧
    envDup.existingRecord = true :=
  ⟨rfl, rfl, rfl, rfl⟩

/-- C1 (amended): a duplicate found by the pre-insert check yields the 409
error outcome `alreadyMarked` (distinguishable from success, but an error
response), and a primary insert rejected by the storage layer — the only
path a concurrent duplicate can take — yields the generic 500 error
outcome `insertFailed`; there is no non-error "already marked" path. -/
theorem C1_duplicate_paths_are_errors :
    (∀ (env : MarkEnv) (s : Session),
      env.hasAuthHeader = true → env.userOk = true →
      env.role = some "student" → jsStrTruthy env.sessionId = true →
      env.session = some s → s.status = "active" →
      ¬ s.expiresAt < env.now → env.student.isSome = true →
      env.existingRecord = true →
      markSmartAttendance env =
        ⟨MarkOutcome.alreadyMarked, false, false, false⟩) ∧
    (∀ (env : MarkEnv) (s : Session),
      env.hasAuthHeader = true → env.userOk = true →
      env.role = some "student" → jsStrTruthy env.sessionId = true →
      env.session = some s → s.status = "active" →
      ¬ s.expiresAt < env.now → env.student.isSome = true →
      env.existingRecord = false →
      (gpsOf s env ∨ wifiOf s env) → env.insertFails = true →
      markSmartAttendance env =
        ⟨MarkOutcome.insertFailed, false, false, false⟩) ∧
    isErrorBody MarkOutcome.alreadyMarked = true ∧
    statusCodeOf MarkOutcome.alreadyMarked = 409 ∧
    isErrorBody MarkOutcome.insertFailed = true ∧
    statusCodeOf MarkOutcome.insertFailed = 500 := by
  refine ⟨?_, ?_, rfl, rfl, rfl, rfl⟩
  · intro env s hA hU hR hSid hS hAct hExp hStud hDup
    obtain ⟨st, hst⟩ := Option.isSome_iff_exists.mp hStud
    simp [markSmartAttendance, hA, hU, hR, hSid, hS, hAct, hExp, hst, hDup]
  · intro env s hA hU hR hSid hS hAct hExp hStud hDup hOk hIns
    rw [mark_reaches_verify env s hA hU hR hSid hS hAct hExp hStud hDup]
    exact verify_insert_fails s env hOk hIns

/-- An otherwise valid request that reaches the primary insert (campus
settings present, claim at the campus point) and whose insert fails. -/
def envInsFail : MarkEnv :=
  { baseEnv with
    campusSettings := some cCfg
    latitude := some 12
    longitude := some 77
    insertFails := true }

/-- C1 witness: both amended branches hold at concrete inputs. -/
theorem C1_witness :
    markSmartAttendance envDup =
      ⟨MarkOutcome.alreadyMarked, false, false, false⟩ ∧
    markSmartAttendance envInsFail =
      ⟨MarkOutcome.insertFailed, false, false, false⟩ := by
  have hgps : gpsOf sBoth envInsFail := by
    show getDistanceMeters 12 77 12 77 ≤ (200 : ℝ)
    rw [getDistanceMeters_self]
    norm_num
  exact ⟨C1_duplicate_paths_are_errors.1 envDup sBoth rfl rfl rfl rfl rfl rfl
      (by decide) rfl rfl,
    C1_duplicate_paths_are_errors.2.1 envInsFail sBoth rfl rfl rfl rfl rfl rfl
      (by decide) rfl rfl (Or.inl hgps) rfl⟩

/-- C2 counterexample: for a session with gpsRequired = true and NO campus
settings row, the handler's GPS check is satisfied (the claim says it must
not be). -/
theorem C2_counterexample :
    gpsVerifiedOf ⟨"active", 1000, true, true⟩ none none none ∧
    (none : Option CampusSettings).isSome = false :=
  ⟨trivial, rfl⟩

/-- C2 (amended): for a session with gpsRequired = true, the GPS check is
satisfied iff either no CampusConfig exists (trivially satisfied, as if not
required), or a config exists, both coordinates are present, and the
haversine distance to the config's point is at most the allowed radius. -/
theorem C2_gps_check_characterization (s : Session)
    (cfg : Option CampusSettings) (lat lon : Option ℝ)
    (hG : s.gpsRequired = true) :
    gpsVerifiedOf s cfg lat lon ↔
      (cfg = none ∨ ∃ c la lo, cfg = some c ∧ lat = some la ∧ lon = some lo ∧
        getDistanceMeters la lo c.latitude c.longitude ≤
          c.allowedRadiusMeters) := by
  cases cfg with
  | none => simp [gpsVerifiedOf_no_config]
  | some c =>
    rw [gpsVerifiedOf_iff s c lat lon hG]
    constructor
    · rintro ⟨la, lo, h1, h2, h3⟩
      exact Or.inr ⟨c, la, lo, rfl, h1, h2, h3⟩
    · rintro (h | ⟨c2, la, lo, hc, h1, h2, h3⟩)
      · exact absurd h (by simp)
      · injection hc with hc2
        subst hc2
        exact ⟨la, lo, h1, h2, h3⟩

/-- C2 witness: the characterization applied at a concrete config and a
claim at the campus point itself. -/
theorem C2_witness :
    gpsVerifiedOf sBoth (some cCfg) (some 12) (some 77) :=
  (C2_gps_check_characterization sBoth (some cCfg) (some 12) (some 77)
      rfl).mpr
    (Or.inr ⟨cCfg, 12, 77, rfl, rfl, rfl, by
      show getDistanceMeters 12 77 12 77 ≤ (200 : ℝ)
      rw [getDistanceMeters_self]
      norm_num⟩)

/-- C5: whenever the session is not flagged active or the clock is strictly
past expiresAt, the handler rejects with the session-closed-or-expired
error and writes nothing. -/
theorem C5_closed_or_expired_rejected (env : MarkEnv) (s : Session)
    (hA : env.hasAuthHeader = true) (hU : env.userOk = true)
    (hR : env.role = some "student") (hSid : jsStrTruthy env.sessionId = true)
    (hS : env.session = some s)
    (hExp : s.status ≠ "active" ∨ s.expiresAt < env.now) :
    markSmartAttendance env =
      ⟨MarkOutcome.sessionClosedOrExpired, false, false, false⟩ := by
  simp [markSmartAttendance, hA, hU, hR, hSid, hS]
  intro h1 h2
  rcases hExp with h | h
  · exact absurd h1 h
  · exact absurd h (by simpa using h2)

/-- An otherwise valid request arriving exactly 1 ms after expiry of a
still-"active"-flagged session. -/
def envExp : MarkEnv := { baseEnv with now := 1001 }

/-- C5 witness: the boundary instance now = expiresAt + 1 ms. -/
theorem C5_witness :
    markSmartAttendance envExp =
      ⟨MarkOutcome.sessionClosedOrExpired, false, false, false⟩ ∧
    envExp.now = sBoth.expiresAt + 1 ∧ sBoth.status = "active" :=
  ⟨C5_closed_or_expired_rejected envExp sBoth rfl rfl rfl rfl rfl
      (Or.inr (by decide)),
    rfl, rfl⟩

/-- C6: for a session with wifiRequired = true and an existing config, the
WiFi check is satisfied iff the campus IP is set, the claim IP is not
"unknown", and the claim IP either equals the campus IP or starts with a
non-empty configured range string (plain string prefix match). -/
theorem C6_wifi_check_characterization (s : Session) (c : CampusSettings)
    (ip : String) (hW : s.wifiRequired = true) :
    wifiVerifiedOf s (some c) ip ↔
      (jsStrTruthy c.campusIp = true ∧ ip ≠ "unknown" ∧
        (c.campusIp = some ip ∨
          ∃ r, c.campusIpRange = some r ∧ r ≠ "" ∧
            ip.startsWith r = true)) := by
  rw [wifiVerifiedOf_iff s c ip hW]
  cases hr : c.campusIpRange with
  | none => simp [jsStrTruthy]
  | some r =>
    by_cases hre : r = ""
    · subst hre
      simp [jsStrTruthy]
    · simp [jsStrTruthy, hre]

/-- C6 witness: the characterization applied at a concrete config with the
claim IP equal to the campus IP. -/
theorem C6_witness : wifiVerifiedOf sBoth (some cCfg) "10.0.0.1" :=
  (C6_wifi_check_characterization sBoth cCfg "10.0.0.1" rfl).mpr
    ⟨rfl, by decide, Or.inl rfl⟩

/-- C10: every rejected request — missing auth, invalid user, non-student
role, missing session id, unknown session, closed or expired session,
missing student record, duplicate, or failed verification — writes no
smart-attendance row and never attempts the ledger write. -/
theorem C10_rejection_is_atomic (env : MarkEnv)
    (h : (markSmartAttendance env).outcome = MarkOutcome.notAuthenticated ∨
      (markSmartAttendance env).outcome = MarkOutcome.invalidUser ∨
      (markSmartAttendance env).outcome = MarkOutcome.notStudent ∨
      (markSmartAttendance env).outcome = MarkOutcome.missingSessionId ∨
      (markSmartAttendance env).outcome = MarkOutcome.sessionNotFound ∨
      (markSmartAttendance env).outcome = MarkOutcome.sessionClosedOrExpired ∨
      (markSmartAttendance env).outcome = MarkOutcome.studentNotFound ∨
      (markSmartAttendance env).outcome = MarkOutcome.alreadyMarked ∨
      (∃ p q, (markSmartAttendance env).outcome =
        MarkOutcome.verificationFailed p q)) :
    (markSmartAttendance env).smartWritten = false ∧
    (markSmartAttendance env).ledgerAttempted = false ∧
    (markSmartAttendance env).ledgerWritten = false := by
  rcases mark_writes_shape env with ⟨v, hv⟩ | hw
  · exfalso
    rcases h with h | h | h | h | h | h | h | h | ⟨p, q, h⟩ <;>
      rw [h] at hv <;> simp at hv
  · exact hw

/-- A request with no Authorization header. -/
def envNoAuth : MarkEnv := { baseEnv with hasAuthHeader := false }

/-- C10 witness: the unauthenticated rejection writes nothing. -/
theorem C10_witness :
    (markSmartAttendance envNoAuth).smartWritten = false ∧
    (markSmartAttendance envNoAuth).ledgerAttempted = false ∧
    (markSmartAttendance envNoAuth).ledgerWritten = false :=
  C10_rejection_is_atomic envNoAuth (Or.inl rfl)

/-- C3: with both methods required and a config present, for an otherwise
valid request the handler accepts with type "gps" when only the GPS check
holds, "wifi" when only the WiFi check holds, "both" when both hold, and
rejects reporting both flags when neither holds. -/
theorem C3_or_policy (env : MarkEnv) (s : Session) (c : CampusSettings)
    (hA : env.hasAuthHeader = true) (hU : env.userOk = true)
    (hR : env.role = some "student") (hSid : jsStrTruthy env.sessionId = true)
    (hS : env.session = some s) (hAct : s.status = "active")
    (hExp : ¬ s.expiresAt < env.now) (hStud : env.student.isSome = true)
    (hDup : env.existingRecord = false)
    (hG : s.gpsRequired = true) (hW : s.wifiRequired = true)
    (hC : env.campusSettings = some c) (hIns : env.insertFails = false) :
    ((gpsOf s env ∧ ¬ wifiOf s env) →
      (markSmartAttendance env).outcome = MarkOutcome.success "gps") ∧
    ((¬ gpsOf s env ∧ wifiOf s env) →
      (markSmartAttendance env).outcome = MarkOutcome.success "wifi") ∧
    ((gpsOf s env ∧ wifiOf s env) →
      (markSmartAttendance env).outcome = MarkOutcome.success "both") ∧
    ((¬ gpsOf s env ∧ ¬ wifiOf s env) →
      markSmartAttendance env =
        ⟨MarkOutcome.verificationFailed (gpsOf s env) (wifiOf s env),
          false, false, false⟩) := by
  have hm := mark_reaches_verify env s hA hU hR hSid hS hAct hExp hStud hDup
  refine ⟨?_, ?_, ?_, ?_⟩
  · rintro ⟨hg, hw⟩
    rw [hm, verify_pass s env (Or.inl hg) hIns]
    simp [vtypeOf_gps s env hg hw]
  · rintro ⟨hg, hw⟩
    rw [hm, verify_pass s env (Or.inr hw) hIns]
    simp [vtypeOf_wifi s env hg hw]
  · rintro ⟨hg, hw⟩
    rw [hm, verify_pass s env (Or.inl hg) hIns]
    simp [vtypeOf_both s env hg hw]
  · rintro ⟨hg, hw⟩
    rw [hm, verify_fail s env hg hw]

/-- Valid request, at the campus point, IP not matching: only GPS holds. -/
def env3a : MarkEnv :=
  { baseEnv with
    campusSettings := some cCfg
    latitude := some 12
    longitude := some 77
    cfConnectingIp := some "9.9.9.9" }

/-- Valid request, matching IP, but the allowed radius is negative so the
claimed point is outside it: only WiFi holds. -/
def env3b : MarkEnv :=
  { baseEnv with
    campusSettings := some cCfgNeg
    latitude := some 12
    longitude := some 77
    cfConnectingIp := some "10.0.0.1" }

/-- Valid request, at the campus point with matching IP: both hold. -/
def env3c : MarkEnv :=
  { baseEnv with
    campusSettings := some cCfg
    latitude := some 12
    longitude := some 77
    cfConnectingIp := some "10.0.0.1" }

/-- Valid request, negative radius and mismatching IP: neither holds. -/
def env3d : MarkEnv :=
  { baseEnv with
    campusSettings := some cCfgNeg
    latitude := some 12
    longitude := some 77
    cfConnectingIp := some "9.9.9.9" }

/-- C3 witness: all four scenarios at concrete inputs. -/
theorem C3_witness :
    (markSmartAttendance env3a).outcome = MarkOutcome.success "gps" ∧
    (markSmartAttendance env3b).outcome = MarkOutcome.success "wifi" ∧
    (markSmartAttendance env3c).outcome = MarkOutcome.success "both" ∧
    markSmartAttendance env3d =
      ⟨MarkOutcome.verificationFailed (gpsOf sBoth env3d) (wifiOf sBoth env3d),
        false, false, false⟩ := by
  have hga : gpsOf sBoth env3a := by
    show getDistanceMeters 12 77 12 77 ≤ (200 : ℝ)
    rw [getDistanceMeters_self]
    norm_num
  have hwa : ¬ wifiOf sBoth env3a := by
    show ¬ wifiVerifiedOf sBoth (some cCfg) "9.9.9.9"
    rw [wifiVerifiedOf_iff sBoth cCfg "9.9.9.9" rfl]
    decide
  have hgb : ¬ gpsOf sBoth env3b := by
    show ¬ getDistanceMeters 12 77 12 77 ≤ (-1 : ℝ)
    rw [getDistanceMeters_self]
    norm_num
  have hwb : wifiOf sBoth env3b := by
    show wifiVerifiedOf sBoth (some cCfgNeg) "10.0.0.1"
    rw [wifiVerifiedOf_iff sBoth cCfgNeg "10.0.0.1" rfl]
    decide
  have hgc : gpsOf sBoth env3c := by
    show getDistanceMeters 12 77 12 77 ≤ (200 : ℝ)
    rw [getDistanceMeters_self]
    norm_num
  have hwc : wifiOf sBoth env3c := by
    show wifiVerifiedOf sBoth (some cCfg) "10.0.0.1"
    rw [wifiVerifiedOf_iff sBoth cCfg "10.0.0.1" rfl]
    decide
  have hgd : ¬ gpsOf sBoth env3d := by
    show ¬ getDistanceMeters 12 77 12 77 ≤ (-1 : ℝ)
    rw [getDistanceMeters_self]
    norm_num
  have hwd : ¬ wifiOf sBoth env3d := by
    show ¬ wifiVerifiedOf sBoth (some cCfgNeg) "9.9.9.9"
    rw [wifiVerifiedOf_iff sBoth cCfgNeg "9.9.9.9" rfl]
    decide
  exact ⟨(C3_or_policy env3a sBoth cCfg rfl rfl rfl rfl rfl rfl (by decide)
      rfl rfl rfl rfl rfl rfl).1 ⟨hga, hwa⟩,
    (C3_or_policy env3b sBoth cCfgNeg rfl rfl rfl rfl rfl rfl (by decide)
      rfl rfl rfl rfl rfl rfl).2.1 ⟨hgb, hwb⟩,
    (C3_or_policy env3c sBoth cCfg rfl rfl rfl rfl rfl rfl (by decide)
      rfl rfl rfl rfl rfl rfl).2.2.1 ⟨hgc, hwc⟩,
    (C3_or_policy env3d sBoth cCfgNeg rfl rfl rfl rfl rfl rfl (by decide)
      rfl rfl rfl rfl rfl rfl).2.2.2 ⟨hgd, hwd⟩⟩

/-- C4: for an otherwise valid request against a session with at least one
requirement flag off, the handler never rejects for verification — the
outcome is the success response (or the insert-failure error when the
storage insert fails), whatever the coordinates, IP, and the other check's
result. -/
theorem C4_flag_off_always_passes (env : MarkEnv) (s : Session)
    (hA : env.hasAuthHeader = true) (hU : env.userOk = true)
    (hR : env.role = some "student") (hSid : jsStrTruthy env.sessionId = true)
    (hS : env.session = some s) (hAct : s.status = "active")
    (hExp : ¬ s.expiresAt < env.now) (hStud : env.student.isSome = true)
    (hDup : env.existingRecord = false)
    (hFlag : s.gpsRequired = false ∨ s.wifiRequired = false) :
    (markSmartAttendance env).outcome = MarkOutcome.insertFailed ∨
      ∃ v, (markSmartAttendance env).outcome = MarkOutcome.success v := by
  have hOk : gpsOf s env ∨ wifiOf s env := by
    rcases hFlag with h | h
    · exact Or.inl (gpsVerifiedOf_not_required s env.campusSettings
        env.latitude env.longitude h)
    · exact Or.inr (wifiVerifiedOf_not_required s env.campusSettings
        (resolveClientIp env.xForwardedFor env.cfConnectingIp) h)
  rw [mark_reaches_verify env s hA hU hR hSid hS hAct hExp hStud hDup]
  by_cases hi : env.insertFails = true
  · rw [verify_insert_fails s env hOk hi]
    exact Or.inl rfl
  · rw [verify_pass s env hOk (by simpa using hi)]
    exact Or.inr ⟨vtypeOf s env, rfl⟩

/-- Valid request against the GPS-off session, with a config present and a
mismatching IP, so the one remaining required check (WiFi) actually
fails. -/
def env4 : MarkEnv :=
  { baseEnv with
    session := some sGpsOff
    campusSettings := some cCfg
    cfConnectingIp := some "9.9.9.9" }

/-- C4 witness: the GPS-off session accepts even though the required WiFi
check fails on this request. -/
theorem C4_witness :
    (markSmartAttendance env4).outcome = MarkOutcome.insertFailed ∨
      ∃ v, (markSmartAttendance env4).outcome = MarkOutcome.success v :=
  C4_flag_off_always_passes env4 sGpsOff rfl rfl rfl rfl rfl rfl (by decide)
    rfl rfl (Or.inl rfl)

/-- C7: the face-match scan is the first-match-wins linear scan over the
optionally class-filtered candidates, accepting exactly a parsed verdict
with match = true and confidence at least 0.65; a confidence of 0.60 is
never accepted and match = true with confidence 0.70 is accepted. -/
theorem C7_face_scan_first_match :
    (∀ (faces : List Candidate) (cf : Option String),
      verifyFaceScan faces cf =
        ((filterFaces faces cf).find? candAccepts).bind
          (fun c => c.student)) ∧
    (∀ m : Bool, acceptsVerdict ⟨m, 3 / 5⟩ = false) ∧
    acceptsVerdict ⟨true, 7 / 10⟩ = true := by
  refine ⟨fun faces cf => scanFaces_eq_find (filterFaces faces cf), ?_, ?_⟩
  · intro m
    have h : decide ((13 : ℚ) / 20 ≤ 3 / 5) = false := by
      rw [decide_eq_false_iff_not]
      norm_num
    simp [acceptsVerdict, h]
  · have h : decide ((13 : ℚ) / 20 ≤ 7 / 10) = true := by
      rw [decide_eq_true_eq]
      norm_num
    simp [acceptsVerdict, h]

/-- C8: once the primary record insert succeeds, the ledger write is
attempted exactly when no ledger entry exists for the student today, and
the overall response is the success with the verification type regardless
of whether that secondary write fails. -/
theorem C8_ledger_best_effort (env : MarkEnv) (s : Session)
    (hA : env.hasAuthHeader = true) (hU : env.userOk = true)
    (hR : env.role = some "student") (hSid : jsStrTruthy env.sessionId = true)
    (hS : env.session = some s) (hAct : s.status = "active")
    (hExp : ¬ s.expiresAt < env.now) (hStud : env.student.isSome = true)
    (hDup : env.existingRecord = false)
    (hOk : gpsOf s env ∨ wifiOf s env) (hIns : env.insertFails = false) :
    markSmartAttendance env =
      ⟨MarkOutcome.success (vtypeOf s env), true, !env.existingLedger,
        !env.existingLedger && !env.ledgerInsertFails⟩ := by
  rw [mark_reaches_verify env s hA hU hR hSid hS hAct hExp hStud hDup]
  exact verify_pass s env hOk hIns

/-- Valid request at the campus point whose secondary ledger insert
fails. -/
def env8 : MarkEnv :=
  { baseEnv with
    campusSettings := some cCfg
    latitude := some 12
    longitude := some 77
    ledgerInsertFails := true }

/-- C8 witness: the ledger write is attempted and fails, yet the response
is still the success with the verification type. -/
theorem C8_witness :
    markSmartAttendance env8 =
      ⟨MarkOutcome.success (vtypeOf sBoth env8), true, true, false⟩ ∧
    env8.ledgerInsertFails = true := by
  have hgps : gpsOf sBoth env8 := by
    show getDistanceMeters 12 77 12 77 ≤ (200 : ℝ)
    rw [getDistanceMeters_self]
    norm_num
  exact ⟨C8_ledger_best_effort env8 sBoth rfl rfl rfl rfl rfl rfl (by decide)
      rfl rfl (Or.inl hgps) rfl, rfl⟩

/-- C9: the distance evaluator is symmetric in its two points, zero at
coincident points, and non-negative everywhere. -/
theorem C9_distance_properties (lat1 lon1 lat2 lon2 : ℝ) :
    getDistanceMeters lat1 lon1 lat2 lon2 =
      getDistanceMeters lat2 lon2 lat1 lon1 ∧
    getDistanceMeters lat1 lon1 lat1 lon1 = 0 ∧
    0 ≤ getDistanceMeters lat1 lon1 lat2 lon2 :=
  ⟨getDistanceMeters_symm lat1 lon1 lat2 lon2,
    getDistanceMeters_self lat1 lon1,
    getDistanceMeters_nonneg lat1 lon1 lat2 lon2⟩
